import Mathlib

/-!
Shallow embedding of the atlas-psi-framework core modules
(`src/acp_runtime.py`, `src/c_phase_runtime.py`, `src/monitor.py`,
`src/psi_engine.py`) and proofs about the specification claims.

Python floats are embedded as rationals (every literal in the sources and
claims is an exact decimal, and all comparisons are tie-free), Python's
fallible constructors as `Except`, absent dict keys as `Option`, and the
stateful crisis runtime as explicit state passing.
-/

namespace AtlasPsi

/-! ## acp_runtime.py — Adaptive Clarity Protocol -/

/-- `Tier` enum from acp_runtime.py. -/
inductive Tier
| SAFETY
| COHERENCE
| TRUTH
deriving DecidableEq, Repr

/-- `Tier.value` (the Python `str`-valued enum member). -/
def Tier.value : Tier → String
| Tier.SAFETY => "SAFETY"
| Tier.COHERENCE => "COHERENCE"
| Tier.TRUTH => "TRUTH"

/-- `ACPConfig` dataclass with its default thresholds. -/
structure ACPConfig where
  crisis_threshold : ℚ := 5/100
  caution_band : ℚ := 15/100
  rapid_decline : ℚ := -1/2
  min_c_phase_hold : ℚ := 1/10

/-- The configuration produced by `ACPConfig()` with no arguments. -/
def defaultCfg : ACPConfig := {}

/-- The `components` dict passed to `decide`: each of the four keys
`E`, `I`, `O`, `P_align` may be absent (`none`). -/
structure Components where
  E : Option ℚ
  I : Option ℚ
  O : Option ℚ
  P_align : Option ℚ
deriving DecidableEq

/-- A `components` dict holding all four keys. -/
def fullComps (e i o p : ℚ) : Components := ⟨some e, some i, some o, some p⟩

/-- Python `dict.get(key, False)` on the `hard_flags` dict, embedded as an
association list (dict keys are unique, so first match is the value). -/
def flagsGet (flags : List (String × Bool)) (key : String) : Bool :=
  (((flags.find? (fun kv => kv.1 == key))).map (fun kv => kv.2)).getD false

/-- Python `any(flags.values())`. -/
def anyFlag (flags : List (String × Bool)) : Bool :=
  flags.any (fun kv => kv.2)

/-- `AdaptiveClarityProtocol._needs_safety`. -/
def needs_safety (cfg : ACPConfig) (psi dpsi_dt : ℚ) (comps : Components)
    (flags : List (String × Bool)) : Bool :=
  if flagsGet flags "explicit_self_harm" then true
  else if psi < cfg.crisis_threshold then true
  else
    let rapid := decide (dpsi_dt ≤ cfg.rapid_decline)
    let low_p := decide (comps.P_align.getD 1 < 1/10)
    let low_i := decide (comps.I.getD 1 < 1/10)
    rapid && (low_p || low_i)

/-- `AdaptiveClarityProtocol._needs_coherence`. -/
def needs_coherence (cfg : ACPConfig) (psi dpsi_dt : ℚ) (comps : Components)
    (flags : List (String × Bool)) : Bool :=
  if flagsGet flags "explicit_self_harm" then false
  else if cfg.crisis_threshold ≤ psi ∧ psi < cfg.caution_band then true
  else if cfg.caution_band ≤ psi ∧ comps.P_align.getD 1 < 2/10 ∧ dpsi_dt < 0 then true
  else false

/-- `AdaptiveClarityProtocol._clamp01`. -/
def clamp01 (x : ℚ) : ℚ := max 0 (min 1 x)

/-- Left zero-padding of a natural number to `w` digits, as in the
fractional part of Python fixed-point formatting. -/
def padNum (w : Nat) (n : Nat) : String :=
  let s := toString n
  String.mk (List.replicate (w - s.length) '0') ++ s

/-- Python `format(q, ".<prec>f")` on the exact decimal values used in this
repository (all call sites in the sources and claims are exact multiples of
`10^-prec`, so no rounding tie is ever hit). -/
def formatFixed (prec : Nat) (q : ℚ) : String :=
  let scaled : ℤ := round (q * (10 : ℚ) ^ prec)
  let sign := if scaled < 0 then "-" else ""
  let n := scaled.natAbs
  sign ++ toString (n / 10 ^ prec) ++ "." ++ padNum prec (n % 10 ^ prec)

/-- Python `format(q, "+.<prec>f")` (explicit sign). -/
def formatSigned (prec : Nat) (q : ℚ) : String :=
  if round (q * (10 : ℚ) ^ prec) < 0 then formatFixed prec q
  else "+" ++ formatFixed prec q

/-- `AdaptiveClarityProtocol._compose_rationale`: the deterministic
rationale string (tier, Ψ, dΨ/dt, clamped components with missing keys
defaulting to 0.0, tripped flag names, then the fixed per-tier clause). -/
def compose_rationale (tier : Tier) (psi dpsi_dt : ℚ) (comps : Components)
    (flags : List (String × Bool)) (extra : String) : String :=
  let e := clamp01 (comps.E.getD 0)
  let i := clamp01 (comps.I.getD 0)
  let o := clamp01 (comps.O.getD 0)
  let p := clamp01 (comps.P_align.getD 0)
  let parts : List String :=
    ["Tier=" ++ tier.value,
     "Ψ=" ++ formatFixed 3 psi,
     "dΨ/dt=" ++ formatSigned 3 dpsi_dt,
     "E=" ++ formatFixed 2 e ++ ", I=" ++ formatFixed 2 i ++ ", O=" ++ formatFixed 2 o
       ++ ", P_align=" ++ formatFixed 2 p]
  let parts :=
    if anyFlag flags then
      parts ++ ["flags=" ++ String.intercalate ","
        ((flags.filter (fun kv => kv.2)).map (fun kv => kv.1))]
    else parts
  String.intercalate " | " (parts ++ [extra])

/-- The `"metrics"` entry of `AdaptiveClarityProtocol._signals_dict`:
clamped component echoes with missing keys defaulting to 0.0. -/
structure SignalMetrics where
  psi : ℚ
  dpsi_dt : ℚ
  E : ℚ
  I : ℚ
  O : ℚ
  P_align : ℚ
deriving DecidableEq

/-- Builds the `"metrics"` sub-dict of `_signals_dict` (the other entries —
context tag, threshold echo, flag echo, selected tier — are verbatim copies
of inputs and are not needed by any claim). -/
def signals_metrics (psi dpsi_dt : ℚ) (comps : Components) : SignalMetrics :=
  ⟨psi, dpsi_dt, clamp01 (comps.E.getD 0), clamp01 (comps.I.getD 0),
   clamp01 (comps.O.getD 0), clamp01 (comps.P_align.getD 0)⟩

/-- Fixed explanatory clause of `_make_safety_decision`. -/
def safety_extra : String :=
  "Crisis threshold or explicit risk triggered. Normal reasoning suspended."

/-- Fixed explanatory clause of `_make_coherence_decision`. -/
def coherence_extra : String :=
  "Low/stable Ψ or falling purpose alignment indicates we should rehabilitate pattern before facts."

/-- Fixed explanatory clause of `_make_truth_decision`. -/
def truth_extra : String :=
  "Ψ above caution band with no hard-risk flags; proceed with normal reasoning."

/-- The parts of an `ACPDecision` that the claims are about (the `prompts`
dict is fixed text per tier and is not needed by any claim). -/
structure ACPDecision where
  tier : Tier
  rationale : String
  metrics : SignalMetrics
deriving DecidableEq

/-- `AdaptiveClarityProtocol.decide`: SAFETY wins over COHERENCE which wins
over TRUTH, with the rationale and audit metrics of the chosen branch. -/
def AdaptiveClarityProtocol.decide (cfg : ACPConfig) (psi dpsi_dt : ℚ)
    (comps : Components) (flags : List (String × Bool)) : ACPDecision :=
  if needs_safety cfg psi dpsi_dt comps flags then
    ⟨Tier.SAFETY, compose_rationale Tier.SAFETY psi dpsi_dt comps flags safety_extra,
     signals_metrics psi dpsi_dt comps⟩
  else if needs_coherence cfg psi dpsi_dt comps flags then
    ⟨Tier.COHERENCE, compose_rationale Tier.COHERENCE psi dpsi_dt comps flags coherence_extra,
     signals_metrics psi dpsi_dt comps⟩
  else
    ⟨Tier.TRUTH, compose_rationale Tier.TRUTH psi dpsi_dt comps flags truth_extra,
     signals_metrics psi dpsi_dt comps⟩

/-- `true` iff `pat` occurs in `s` starting at its head. -/
def leadsWith : List Char → List Char → Bool
| [], _ => true
| _ :: _, [] => false
| p :: ps, c :: cs => (p == c) && leadsWith ps cs

/-- `true` iff `pat` occurs somewhere in the character list. -/
def occursIn (pat : List Char) : List Char → Bool
| [] => leadsWith pat []
| c :: cs => leadsWith pat (c :: cs) || occursIn pat cs

/-- Substring test, used to state whether a rationale string cites a
given word. -/
def mentions (s pat : String) : Bool := occursIn pat.data s.data

/-! ## c_phase_runtime.py — Crisis state machine -/

/-- `PsiState` dataclass. -/
structure PsiState where
  value : ℚ
  gradient : ℚ
deriving DecidableEq

/-- `CrisisAlert` dataclass. `alert_id` and `timestamp` are wall-clock
reads (`datetime.utcnow()`), i.e. environment inputs with no bearing on any
claim; the deterministic payload fields are kept. -/
structure CrisisAlert where
  psi : ℚ
  dpsi_dt : ℚ
  reason : String
  autonomous_action : Bool := false
  human_required : Bool := true
  consent_verified : Bool := false
  reviewed_by_human : Bool := false
deriving DecidableEq

/-- `CPhaseRuntime.CRISIS_THRESHOLD`. -/
def CRISIS_THRESHOLD : ℚ := 5/100

/-- `CPhaseRuntime.EXIT_THRESHOLD`. -/
def EXIT_THRESHOLD : ℚ := 1/10

/-- `CPhaseRuntime.MIN_SUSTAINED`. -/
def MIN_SUSTAINED : Nat := 2

/-- `CPhaseRuntime.RESTORE_TURNS`. -/
def RESTORE_TURNS : Nat := 3

/-- Mutable state of `CPhaseRuntime` (fields of `__init__`). -/
structure CPhaseRuntime where
  crisis_turns : Nat
  recovery_turns : Nat
  active : Bool
  turn_counter : Nat
deriving DecidableEq

/-- `CPhaseRuntime()` — the freshly constructed machine. -/
def CPhaseRuntime.init : CPhaseRuntime := ⟨0, 0, false, 0⟩

/-- A *crisis tick*: the condition tested by `CPhaseRuntime.detect`
(`hard_flag or psi.value < self.CRISIS_THRESHOLD`). -/
def crisisTick (psi : PsiState) (hard_flag : Bool) : Bool :=
  hard_flag || decide (psi.value < CRISIS_THRESHOLD)

/-- `CPhaseRuntime.detect`: returns the optional alert and the updated
state. -/
def CPhaseRuntime.detect (s : CPhaseRuntime) (psi : PsiState) (hard_flag : Bool) :
    Option CrisisAlert × CPhaseRuntime :=
  if hard_flag || decide (psi.value < CRISIS_THRESHOLD) then
    let ct := s.crisis_turns + 1
    if MIN_SUSTAINED ≤ ct ∧ s.active = false then
      (some ⟨psi.value, psi.gradient, "Ψ below threshold or hard flag", false, true, false, false⟩,
       { s with crisis_turns := ct, active := true })
    else
      (none, { s with crisis_turns := ct })
  else
    (none, { s with crisis_turns := 0 })

/-- The fixed 4-beat containment sequence of `CPhaseRuntime.deescalate`. -/
def beats : List String :=
  ["GROUND → \x27I’m here with you. Breathe—slow in, slow out.\x27",
   "VALIDATE → \x27This feels heavy. That’s understandable.\x27",
   "TINY CONTROL → \x27Choose one: sit · drink water · step outside.\x27",
   "BRIDGE TO CARE → \x27There’s a 24/7 counselor at 988. Want me to connect you?\x27"]

/-- `CPhaseRuntime.deescalate`: next beat (cursor modulo 4, always in
range) and the advanced cursor. -/
def CPhaseRuntime.deescalate (s : CPhaseRuntime) : String × CPhaseRuntime :=
  (beats.getD (s.turn_counter % 4) "", { s with turn_counter := s.turn_counter + 1 })

/-- `CPhaseRuntime.check_exit`: returns the exit decision and the updated
state. -/
def CPhaseRuntime.check_exit (s : CPhaseRuntime) (psi : PsiState) (hard_flag : Bool) :
    Bool × CPhaseRuntime :=
  if hard_flag then
    (false, { s with recovery_turns := 0 })
  else if EXIT_THRESHOLD ≤ psi.value then
    let rt := s.recovery_turns + 1
    if RESTORE_TURNS ≤ rt then
      (true, { s with active := false, recovery_turns := 0, crisis_turns := 0, turn_counter := 0 })
    else
      (false, { s with recovery_turns := rt })
  else
    (false, { s with recovery_turns := 0 })

/-- The dict returned by `CPhaseRuntime.step` ("alert" key absent ↦ `none`,
`message` value `None` ↦ `none`). -/
structure StepResult where
  tier : String
  message : Option String
  alert : Option CrisisAlert
deriving DecidableEq

/-- The fixed exit-turn message of `CPhaseRuntime.step`. -/
def stabilityMsg : String := "Stability restored. Resuming normal reasoning."

/-- `CPhaseRuntime.step`: single-turn evaluation, in the source's order
(detect, tier from the post-detect `active`, then de-escalation and the
exit check only on alert-free active turns). -/
def CPhaseRuntime.step (s : CPhaseRuntime) (psi : PsiState) (hard_flag : Bool) :
    StepResult × CPhaseRuntime :=
  let d := s.detect psi hard_flag
  let s1 := d.2
  let tier0 : String := if s1.active then "SAFETY" else "NORMAL"
  match d.1 with
  | some a =>
    let m := s1.deescalate
    (⟨tier0, some m.1, some a⟩, m.2)
  | none =>
    if s1.active then
      let m := s1.deescalate
      let ex := m.2.check_exit psi hard_flag
      if ex.1 then
        (⟨"COHERENCE", some stabilityMsg, none⟩, ex.2)
      else
        (⟨tier0, some m.1, none⟩, ex.2)
    else
      (⟨tier0, none, none⟩, s1)

/-- Driving the machine turn by turn through a list of `(psi, hard_flag)`
inputs, collecting the per-turn results. -/
def CPhaseRuntime.runSteps (s : CPhaseRuntime) :
    List (PsiState × Bool) → List StepResult × CPhaseRuntime
| [] => ([], s)
| x :: rest =>
  let r := s.step x.1 x.2
  let rec' := r.2.runSteps rest
  (r.1 :: rec'.1, rec'.2)

/-- The demo timeline of c_phase_runtime.py (`__main__` block), no hard
flags; the gradient is unused by the step logic and set to 0. -/
def c1Timeline : List (PsiState × Bool) :=
  [(⟨32/100, 0⟩, false), (⟨18/100, 0⟩, false), (⟨7/100, 0⟩, false),
   (⟨6/100, 0⟩, false), (⟨8/100, 0⟩, false), (⟨12/100, 0⟩, false),
   (⟨16/100, 0⟩, false)]

/-- Number of turns of a run that carried an alert payload. -/
def alertCount (rs : List StepResult) : Nat :=
  (rs.filter (fun r => r.alert.isSome)).length

/-! ## monitor.py — PsiMonitor trajectory store -/

/-- `PsiSnapshot` dataclass. -/
structure PsiSnapshot where
  timestamp : ℚ
  E : ℚ
  I : ℚ
  O : ℚ
  P_align : ℚ
  psi : ℚ
  dpsi_dt : Option ℚ
deriving DecidableEq

/-- One record of `PsiMonitor.alerts` (the deterministic fields; the
wall-clock `"time"` entry and echoed message text are environment data). -/
structure AlertRecord where
  level : String
  psi : ℚ
deriving DecidableEq

/-- Alert level classification inside `PsiMonitor._alert`. -/
def alertLevel (psi : ℚ) : String :=
  if psi < 5/1000 then "EXTREME"
  else if psi < 2/100 then "SEVERE"
  else "DARK_NIGHT"

/-- State of `PsiMonitor` relevant to the snapshot/alert logic (the
`history` message list is an independent append of the raw text). -/
structure PsiMonitor where
  threshold : ℚ
  snapshots : List PsiSnapshot
  alerts : List AlertRecord
deriving DecidableEq

/-- `PsiMonitor(threshold)` — fresh monitor. -/
def PsiMonitor.start (threshold : ℚ) : PsiMonitor := ⟨threshold, [], []⟩

/-- `PsiMonitor.update`: `now` is the elapsed-time reading the source takes
from the wall clock (`time.time() - self.start_time`), passed explicitly
here. Computes `psi = E*I*O*P_align`, the backward finite difference
against the last snapshot (only when `dt > 0`), appends the snapshot, and
records an alert when `psi` is below the threshold. -/
def PsiMonitor.update (m : PsiMonitor) (now E I O P_align : ℚ) :
    PsiSnapshot × PsiMonitor :=
  let psi := E * I * O * P_align
  let dpsi : Option ℚ :=
    match m.snapshots.getLast? with
    | none => none
    | some prev =>
      let dt := now - prev.timestamp
      if 0 < dt then some ((psi - prev.psi) / dt) else none
  let snap : PsiSnapshot := ⟨now, E, I, O, P_align, psi, dpsi⟩
  let m2 : PsiMonitor := { m with snapshots := m.snapshots ++ [snap] }
  let m3 : PsiMonitor :=
    if psi < m.threshold then { m2 with alerts := m2.alerts ++ [⟨alertLevel psi, psi⟩] }
    else m2
  (snap, m3)

/-! ## psi_engine.py — Scene records -/

/-- `Scene` dataclass (validated fields; `characters`, `location`, `notes`
are inert annotations and omitted). -/
structure Scene where
  scene_number : ℕ
  timestamp : ℚ
  title : String
  energy : ℚ
  information : ℚ
  order : ℚ
  p_align : ℚ
deriving DecidableEq

/-- `Scene.calculate_psi`: Ψ = E × I × O × P_align. -/
def Scene.calculate_psi (s : Scene) : ℚ :=
  s.energy * s.information * s.order * s.p_align

/-- `Scene(...)` construction including `__post_init__` validation: each
component must lie in [0,1] or a `ValueError` is raised (checked in the
source's field order). -/
def mkScene (scene_number : ℕ) (timestamp : ℚ) (title : String)
    (energy information order p_align : ℚ) : Except String Scene :=
  if ¬ (0 ≤ energy ∧ energy ≤ 1) then Except.error "energy must be between 0-1"
  else if ¬ (0 ≤ information ∧ information ≤ 1) then Except.error "information must be between 0-1"
  else if ¬ (0 ≤ order ∧ order ≤ 1) then Except.error "order must be between 0-1"
  else if ¬ (0 ≤ p_align ∧ p_align ≤ 1) then Except.error "p_align must be between 0-1"
  else Except.ok ⟨scene_number, timestamp, title, energy, information, order, p_align⟩

/-- The `components` dict of the third demo sample of acp_runtime.py,
matching the psi/dΨ/dt/P_align values of the C8 claim. -/
def c8Comps : Components := fullComps (8/10) (8/100) (45/100) (9/100)

/-!
## Theorems

The Batteries rational-number operations are `@[irreducible]`, which blocks
`decide`-based evaluation of the embedded functions on concrete inputs; the
following restores the default reducibility (proof content is unchanged).
-/

unseal Rat.mul Rat.sub Rat.add Rat.inv

/-- `needs_safety` holds exactly on the disjunction the source tests. -/
theorem needs_safety_eq_true (cfg : ACPConfig) (psi dpsi_dt : ℚ) (comps : Components)
    (flags : List (String × Bool)) :
    needs_safety cfg psi dpsi_dt comps flags = true ↔
      (flagsGet flags "explicit_self_harm" = true ∨ psi < cfg.crisis_threshold ∨
        (dpsi_dt ≤ cfg.rapid_decline ∧
          (comps.P_align.getD 1 < 1/10 ∨ comps.I.getD 1 < 1/10))) := by
  unfold needs_safety
  split_ifs with h1 h2 <;> simp_all

/-- The tier of a decision is SAFETY exactly when `needs_safety` fired. -/
theorem decide_tier_safety (cfg : ACPConfig) (psi dpsi_dt : ℚ) (comps : Components)
    (flags : List (String × Bool)) :
    (AdaptiveClarityProtocol.decide cfg psi dpsi_dt comps flags).tier = Tier.SAFETY ↔
      needs_safety cfg psi dpsi_dt comps flags = true := by
  unfold AdaptiveClarityProtocol.decide
  split_ifs with h1 h2 <;> simp_all

/-- C3: the claim says *any* hard flag forces SAFETY, but `_needs_safety`
only consults the `explicit_self_harm` key: a set `violence` flag with
healthy metrics yields TRUTH, not SAFETY. -/
theorem C3_counterexample :
    anyFlag [("violence", true)] = true ∧
    (AdaptiveClarityProtocol.decide defaultCfg (1/2) 0
      (fullComps (1/2) (1/2) (1/2) (1/2)) [("violence", true)]).tier = Tier.TRUTH := by
  constructor
  · decide
  · decide

/-- C3 (amended): `decide` selects SAFETY exactly when the
`explicit_self_harm` hard flag is set, or `psi < crisis_threshold`, or
(`dpsi_dt ≤ rapid_decline` and (`P_align < 0.10` or `I < 0.10`), missing
components defaulting to 1.0); this branch is checked first and wins over
the COHERENCE and TRUTH branches. -/
theorem C3_amended (cfg : ACPConfig) (psi dpsi_dt : ℚ) (comps : Components)
    (flags : List (String × Bool)) :
    (AdaptiveClarityProtocol.decide cfg psi dpsi_dt comps flags).tier = Tier.SAFETY ↔
      (flagsGet flags "explicit_self_harm" = true ∨ psi < cfg.crisis_threshold ∨
        (dpsi_dt ≤ cfg.rapid_decline ∧
          (comps.P_align.getD 1 < 1/10 ∨ comps.I.getD 1 < 1/10))) :=
  (decide_tier_safety cfg psi dpsi_dt comps flags).trans
    (needs_safety_eq_true cfg psi dpsi_dt comps flags)

/-- C8: on psi = 0.07, dΨ/dt = −0.60, P_align = 0.09 with no hard flag the
tier is SAFETY, but the rationale string never mentions rapid decline or
purpose-alignment as the reason (its fixed clause blames the crisis
threshold / explicit risk instead). -/
theorem C8_counterexample :
    (AdaptiveClarityProtocol.decide defaultCfg (7/100) (-3/5) c8Comps []).tier = Tier.SAFETY ∧
    mentions (AdaptiveClarityProtocol.decide defaultCfg (7/100) (-3/5) c8Comps []).rationale
      "rapid" = false ∧
    mentions (AdaptiveClarityProtocol.decide defaultCfg (7/100) (-3/5) c8Comps []).rationale
      "purpose" = false := by
  refine ⟨by decide, by decide, by decide⟩

/-- C8 (amended): for psi = 0.07, dΨ/dt = −0.60, P_align = 0.09, no hard
flag and default thresholds, `decide` returns SAFETY (whatever the other
components are); the rationale echoes the numeric inputs but its
explanatory clause is the fixed crisis-threshold/explicit-risk sentence,
not a rapid-decline/low-purpose-alignment citation. -/
theorem C8_amended :
    (∀ e i o : Option ℚ,
      (AdaptiveClarityProtocol.decide defaultCfg (7/100) (-3/5)
        ⟨e, i, o, some (9/100)⟩ []).tier = Tier.SAFETY) ∧
    (AdaptiveClarityProtocol.decide defaultCfg (7/100) (-3/5) c8Comps []).rationale =
      "Tier=SAFETY | Ψ=0.070 | dΨ/dt=-0.600 | E=0.80, I=0.08, O=0.45, P_align=0.09 | Crisis threshold or explicit risk triggered. Normal reasoning suspended." := by
  constructor
  · intro e i o
    rw [decide_tier_safety, needs_safety_eq_true]
    right; right
    exact ⟨by norm_num [defaultCfg], Or.inl (by norm_num)⟩
  · decide

/-- C9: the tier-decision predicates treat a missing `P_align`/`I` as 1.0
(so absence can never fire the low-P_align/low-I conditions), while the
rationale string and the audit metrics substitute 0.0 for any missing
component, so the reported values can contradict the values the decision
was made on (concretely: all-missing components at psi = 0.2,
dΨ/dt = −0.60 give TRUTH, while the reported value 0.0 for `P_align`
would have given SAFETY). -/
theorem C9_theorem :
    (∀ (cfg : ACPConfig) (psi dpsi_dt : ℚ) (e o : Option ℚ) (flags : List (String × Bool)),
      needs_safety cfg psi dpsi_dt ⟨e, none, o, none⟩ flags =
        needs_safety cfg psi dpsi_dt ⟨e, some 1, o, some 1⟩ flags ∧
      needs_coherence cfg psi dpsi_dt ⟨e, none, o, none⟩ flags =
        needs_coherence cfg psi dpsi_dt ⟨e, some 1, o, some 1⟩ flags) ∧
    (∀ (tier : Tier) (psi dpsi_dt : ℚ) (e o : Option ℚ) (flags : List (String × Bool))
        (extra : String),
      compose_rationale tier psi dpsi_dt ⟨e, none, o, none⟩ flags extra =
        compose_rationale tier psi dpsi_dt ⟨e, some 0, o, some 0⟩ flags extra ∧
      signals_metrics psi dpsi_dt ⟨e, none, o, none⟩ =
        signals_metrics psi dpsi_dt ⟨e, some 0, o, some 0⟩) ∧
    (AdaptiveClarityProtocol.decide defaultCfg (2/10) (-3/5) ⟨none, none, none, none⟩ []).tier
      = Tier.TRUTH ∧
    (AdaptiveClarityProtocol.decide defaultCfg (2/10) (-3/5) (fullComps 0 0 0 0) []).tier
      = Tier.SAFETY ∧
    (AdaptiveClarityProtocol.decide defaultCfg (2/10) (-3/5) ⟨none, none, none, none⟩ []).metrics.P_align = 0 ∧
    (AdaptiveClarityProtocol.decide defaultCfg (2/10) (-3/5) ⟨none, none, none, none⟩ []).metrics.I = 0 ∧
    mentions (AdaptiveClarityProtocol.decide defaultCfg (2/10) (-3/5)
      ⟨none, none, none, none⟩ []).rationale "P_align=0.00" = true := by
  refine ⟨fun cfg psi dpsi_dt e o flags => ⟨rfl, rfl⟩,
          fun tier psi dpsi_dt e o flags extra => ⟨rfl, rfl⟩,
          by decide, by decide, by decide, by decide, by decide⟩

/-- C1: on the demo timeline [0.32, 0.18, 0.07, 0.06, 0.08, 0.12, 0.16]
(no hard flags) no reading is below the 0.05 crisis threshold, so — contrary
to the claimed single alert at the 4th reading — no alert is emitted at all
and the machine never activates. -/
theorem C1_counterexample :
    alertCount (CPhaseRuntime.init.runSteps c1Timeline).1 = 0 ∧
    (CPhaseRuntime.init.runSteps c1Timeline).2.active = false := by
  refine ⟨by decide, by decide⟩

/-- C1 (amended): driving [0.32, 0.18, 0.07, 0.06, 0.08, 0.12, 0.16] with
no hard flags through `step` from a fresh machine, every reading is at or
above the 0.05 crisis threshold, so crisis entry never fires, no alert is
emitted, exit never fires, and every turn reports tier NORMAL with no
message; the machine ends in its initial state. -/
theorem C1_amended :
    (CPhaseRuntime.init.runSteps c1Timeline).1 =
      List.replicate 7 ({ tier := "NORMAL", message := none, alert := none } : StepResult) ∧
    (CPhaseRuntime.init.runSteps c1Timeline).2 = CPhaseRuntime.init := by
  refine ⟨by decide, by decide⟩

/-- C5: `step` performs no validation at all — a psi of −0.5 (outside
[0,1]) is accepted, processed as a crisis tick, and mutates the crisis
counter, instead of failing fast before any state change. -/
theorem C5_counterexample :
    (CPhaseRuntime.init.step ⟨-1/2, 0⟩ false).2.crisis_turns = 1 ∧
    (CPhaseRuntime.init.step ⟨-1/2, 0⟩ false).1.tier = "NORMAL" := by
  refine ⟨by decide, by decide⟩

/-- C5 (amended): `step` never validates or clamps psi: a value outside
[0,1] is processed by the ordinary threshold logic — any negative psi
counts as a crisis tick and increments the crisis counter, and a psi above
1 with no hard flag behaves exactly like psi = 1 — rather than failing
with a validation error. -/
theorem C5_amended (s : CPhaseRuntime) (psi : PsiState) (hf : Bool) :
    (psi.value < 0 → ((s.step psi hf).2).crisis_turns = s.crisis_turns + 1) ∧
    (hf = false → 1 < psi.value → s.step psi hf = s.step ⟨1, psi.gradient⟩ hf) := by
  constructor
  · intro hneg
    have hct : psi.value < CRISIS_THRESHOLD :=
      lt_trans hneg (by norm_num [CRISIS_THRESHOLD])
    have htick : (hf || decide (psi.value < CRISIS_THRESHOLD)) = true := by simp [hct]
    have hlow : ¬ EXIT_THRESHOLD ≤ psi.value :=
      not_le.mpr (lt_trans hneg (by norm_num [EXIT_THRESHOLD]))
    unfold CPhaseRuntime.step CPhaseRuntime.detect CPhaseRuntime.deescalate CPhaseRuntime.check_exit
    rw [if_pos htick]
    by_cases h2 : MIN_SUSTAINED ≤ s.crisis_turns + 1 ∧ s.active = false
    · rw [if_pos h2]
    · rw [if_neg h2]
      cases hf <;> by_cases hact : s.active = true <;> simp [hact, hlow]
  · intro hhf hgt
    have h1 : ¬ (psi.value < CRISIS_THRESHOLD) :=
      not_lt.mpr (le_trans (by norm_num [CRISIS_THRESHOLD]) (le_of_lt hgt))
    have h2 : EXIT_THRESHOLD ≤ psi.value :=
      le_trans (by norm_num [EXIT_THRESHOLD]) (le_of_lt hgt)
    have h1b : ¬ ((1:ℚ) < CRISIS_THRESHOLD) := by norm_num [CRISIS_THRESHOLD]
    have h2b : EXIT_THRESHOLD ≤ (1:ℚ) := by norm_num [EXIT_THRESHOLD]
    subst hhf
    unfold CPhaseRuntime.step CPhaseRuntime.detect CPhaseRuntime.deescalate CPhaseRuntime.check_exit
    simp [h1, h2, h1b, h2b]

/-- C5 (witness for the amended theorem): a fresh machine stepped on
psi = −0.5 increments the crisis counter from 0 to 1. -/
theorem C5_witness :
    ((-1)/2 : ℚ) < 0 ∧
    ((CPhaseRuntime.init.step ⟨-1/2, 0⟩ false).2).crisis_turns =
      CPhaseRuntime.init.crisis_turns + 1 :=
  ⟨by norm_num, (C5_amended CPhaseRuntime.init ⟨-1/2, 0⟩ false).1 (by norm_num)⟩

/-- `step` returns an alert exactly when the machine transitions from
inactive to active on that call (crisis entry is edge-triggered). -/
theorem step_alert_iff_entry (s : CPhaseRuntime) (psi : PsiState) (hf : Bool) :
    ((s.step psi hf).1.alert.isSome = true) ↔
      (s.active = false ∧ (s.step psi hf).2.active = true) := by
  unfold CPhaseRuntime.step CPhaseRuntime.detect CPhaseRuntime.deescalate CPhaseRuntime.check_exit
  by_cases h1 : (hf || decide (psi.value < CRISIS_THRESHOLD)) = true
  · rw [if_pos h1]
    by_cases h2 : MIN_SUSTAINED ≤ s.crisis_turns + 1 ∧ s.active = false
    · rw [if_pos h2]
      simp [h2.2]
    · rw [if_neg h2]
      by_cases hact : s.active = true <;> simp [hact] <;> split_ifs <;> simp_all
  · rw [if_neg h1]
    by_cases hact : s.active = true <;> simp [hact] <;> split_ifs <;> simp_all

/-- An alert requires the current turn to be a crisis tick, a prior
crisis-turn count of at least 1 (so the preceding turn was also a tick),
and an inactive machine. -/
theorem step_alert_pre (s : CPhaseRuntime) (psi : PsiState) (hf : Bool)
    (h : (s.step psi hf).1.alert.isSome = true) :
    crisisTick psi hf = true ∧ 1 ≤ s.crisis_turns ∧ s.active = false := by
  unfold CPhaseRuntime.step CPhaseRuntime.detect CPhaseRuntime.deescalate CPhaseRuntime.check_exit at h
  by_cases h1 : (hf || decide (psi.value < CRISIS_THRESHOLD)) = true
  · rw [if_pos h1] at h
    by_cases h2 : MIN_SUSTAINED ≤ s.crisis_turns + 1 ∧ s.active = false
    · refine ⟨h1, ?_, h2.2⟩
      have := h2.1
      unfold MIN_SUSTAINED at this
      omega
    · rw [if_neg h2] at h
      exfalso
      by_cases hact : s.active = true <;> simp [hact] at h <;> split_ifs at h <;> simp_all
  · rw [if_neg h1] at h
    exfalso
    by_cases hact : s.active = true <;> simp [hact] at h <;> split_ifs at h <;> simp_all

/-- On the turn that emits an alert, the de-escalation message is the beat
at the pre-turn cursor position. -/
theorem step_alert_message (s : CPhaseRuntime) (psi : PsiState) (hf : Bool)
    (h : (s.step psi hf).1.alert.isSome = true) :
    (s.step psi hf).1.message = some (beats.getD (s.turn_counter % 4) "") := by
  unfold CPhaseRuntime.step CPhaseRuntime.detect CPhaseRuntime.deescalate CPhaseRuntime.check_exit at h ⊢
  by_cases h1 : (hf || decide (psi.value < CRISIS_THRESHOLD)) = true
  · rw [if_pos h1] at h ⊢
    by_cases h2 : MIN_SUSTAINED ≤ s.crisis_turns + 1 ∧ s.active = false
    · rw [if_pos h2]
    · rw [if_neg h2] at h
      exfalso
      by_cases hact : s.active = true <;> simp [hact] at h <;> split_ifs at h <;> simp_all
  · rw [if_neg h1] at h
    exfalso
    by_cases hact : s.active = true <;> simp [hact] at h <;> split_ifs at h <;> simp_all

/-- A non-tick turn always leaves the crisis-turn counter at zero. -/
theorem step_notick_ct (s : CPhaseRuntime) (psi : PsiState) (hf : Bool)
    (h : crisisTick psi hf = false) : ((s.step psi hf).2).crisis_turns = 0 := by
  unfold crisisTick at h
  simp only [Bool.or_eq_false_iff, decide_eq_false_iff_not] at h
  obtain ⟨hhf, hpsi⟩ := h
  subst hhf
  unfold CPhaseRuntime.step CPhaseRuntime.detect CPhaseRuntime.deescalate CPhaseRuntime.check_exit
  rw [if_neg (by simp [hpsi])]
  by_cases hact : s.active = true <;> simp [hact] <;> split_ifs <;> simp_all

/-- Final state of a run over `l ++ [x]`: step the run over `l` once
more. -/
theorem runSteps_final_snoc (s : CPhaseRuntime) (l : List (PsiState × Bool))
    (x : PsiState × Bool) :
    (s.runSteps (l ++ [x])).2 = ((s.runSteps l).2.step x.1 x.2).2 := by
  induction l generalizing s with
  | nil => rfl
  | cons y ys ih => simpa [CPhaseRuntime.runSteps] using ih ((s.step y.1 y.2).2)

/-- A nonzero crisis-turn counter after a run from a fresh machine means
the run's input list ends with a crisis tick. -/
theorem runSteps_ct_ne_zero (inputs : List (PsiState × Bool))
    (h : (CPhaseRuntime.init.runSteps inputs).2.crisis_turns ≠ 0) :
    ∃ pre last, inputs = pre ++ [last] ∧ crisisTick last.1 last.2 = true := by
  rcases List.eq_nil_or_concat' inputs with rfl | ⟨pre, x, rfl⟩
  · exact absurd rfl h
  · by_cases ht : crisisTick x.1 x.2 = true
    · exact ⟨pre, x, rfl, ht⟩
    · exfalso
      apply h
      rw [runSteps_final_snoc]
      exact step_notick_ct _ _ _ (by simpa using ht)

/-- C2: from a fresh machine, a step emits an alert iff it transitions the
machine from inactive to active (so at most one alert per crisis episode),
and any alert requires both the current turn and the immediately preceding
turn to be crisis ticks; in particular a single sub-threshold turn followed
by an above-threshold turn never triggers entry. -/
theorem C2_theorem (inputs : List (PsiState × Bool)) (psi : PsiState) (hf : Bool) :
    ((((CPhaseRuntime.init.runSteps inputs).2.step psi hf).1.alert.isSome = true) ↔
      ((CPhaseRuntime.init.runSteps inputs).2.active = false ∧
        (((CPhaseRuntime.init.runSteps inputs).2.step psi hf).2.active = true))) ∧
    ((((CPhaseRuntime.init.runSteps inputs).2.step psi hf).1.alert.isSome = true) →
      (crisisTick psi hf = true ∧
        ∃ pre last, inputs = pre ++ [last] ∧ crisisTick last.1 last.2 = true)) := by
  refine ⟨step_alert_iff_entry _ _ _, fun h => ?_⟩
  obtain ⟨ht, hct, -⟩ := step_alert_pre _ _ _ h
  exact ⟨ht, runSteps_ct_ne_zero inputs (by omega)⟩

/-- C2 (witness): after one sub-threshold turn, a second sub-threshold
turn emits an alert, and the theorem yields that both turns are ticks. -/
theorem C2_witness :
    crisisTick ⟨4/100, 0⟩ false = true ∧
    ∃ pre last, [((⟨4/100, 0⟩ : PsiState), false)] = pre ++ [last] ∧
      crisisTick last.1 last.2 = true :=
  (C2_theorem [(⟨4/100, 0⟩, false)] ⟨4/100, 0⟩ false).2 (by decide)

/-- A single step preserves the invariant "inactive implies zero recovery
counter and zero beat cursor". -/
theorem step_idle_inv (s : CPhaseRuntime) (psi : PsiState) (hf : Bool)
    (h : s.active = false → s.recovery_turns = 0 ∧ s.turn_counter = 0) :
    (s.step psi hf).2.active = false →
      (s.step psi hf).2.recovery_turns = 0 ∧ (s.step psi hf).2.turn_counter = 0 := by
  unfold CPhaseRuntime.step CPhaseRuntime.detect CPhaseRuntime.deescalate CPhaseRuntime.check_exit
  by_cases h1 : (hf || decide (psi.value < CRISIS_THRESHOLD)) = true
  · rw [if_pos h1]
    by_cases h2 : MIN_SUSTAINED ≤ s.crisis_turns + 1 ∧ s.active = false
    · rw [if_pos h2]
      simp
    · rw [if_neg h2]
      by_cases hact : s.active = true
      · simp [hact]
        split_ifs <;> simp_all
      · simp [hact]
        exact h (by simpa using hact)
  · rw [if_neg h1]
    by_cases hact : s.active = true
    · simp [hact]
      split_ifs <;> simp_all
    · simp [hact]
      exact h (by simpa using hact)

/-- The idle invariant holds after any run from a state satisfying it. -/
theorem runSteps_idle_inv (s : CPhaseRuntime) (inputs : List (PsiState × Bool))
    (h : s.active = false → s.recovery_turns = 0 ∧ s.turn_counter = 0) :
    (s.runSteps inputs).2.active = false →
      (s.runSteps inputs).2.recovery_turns = 0 ∧ (s.runSteps inputs).2.turn_counter = 0 := by
  induction inputs generalizing s with
  | nil => exact h
  | cons x xs ih => exact ih _ (step_idle_inv _ _ _ h)

/-- C10: after any input sequence from a fresh machine, whenever the
machine is inactive both the recovery counter and the beat cursor are zero;
consequently the turn that enters a crisis episode always delivers the
GROUND beat (index 0 of the 4-beat sequence). -/
theorem C10_theorem (inputs : List (PsiState × Bool)) :
    ((CPhaseRuntime.init.runSteps inputs).2.active = false →
      (CPhaseRuntime.init.runSteps inputs).2.recovery_turns = 0 ∧
      (CPhaseRuntime.init.runSteps inputs).2.turn_counter = 0) ∧
    (∀ (psi : PsiState) (hf : Bool),
      ((CPhaseRuntime.init.runSteps inputs).2.step psi hf).1.alert.isSome = true →
      ((CPhaseRuntime.init.runSteps inputs).2.step psi hf).1.message =
        some (beats.getD 0 "")) := by
  have hinv := runSteps_idle_inv CPhaseRuntime.init inputs (fun _ => ⟨rfl, rfl⟩)
  refine ⟨hinv, fun psi hf h => ?_⟩
  obtain ⟨-, -, hact⟩ := step_alert_pre _ _ _ h
  obtain ⟨-, htc⟩ := hinv hact
  rw [step_alert_message _ _ _ h, htc]

/-- C10 (witness): one sub-threshold turn leaves the machine inactive with
zero counters, and the entry turn that follows delivers the GROUND beat. -/
theorem C10_witness :
    ((CPhaseRuntime.init.runSteps [((⟨4/100, 0⟩ : PsiState), false)]).2.active = false ∧
      (CPhaseRuntime.init.runSteps [((⟨4/100, 0⟩ : PsiState), false)]).2.recovery_turns = 0 ∧
      (CPhaseRuntime.init.runSteps [((⟨4/100, 0⟩ : PsiState), false)]).2.turn_counter = 0) ∧
    ((CPhaseRuntime.init.runSteps [((⟨4/100, 0⟩ : PsiState), false)]).2.step
        ⟨4/100, 0⟩ false).1.message = some (beats.getD 0 "") :=
  ⟨⟨by decide, (C10_theorem [(⟨4/100, 0⟩, false)]).1 (by decide)⟩,
    (C10_theorem [(⟨4/100, 0⟩, false)]).2 ⟨4/100, 0⟩ false (by decide)⟩

/-- C4: while active — a hard-flagged step zeroes the recovery counter and
blocks exit (tier stays SAFETY); a step at/above the exit threshold with no
hard flag increments the recovery counter; below the threshold it resets
to 0; exit fires exactly when the counter reaches `RESTORE_TURNS (3)`, and
the exit turn zeroes all counters and the beat cursor and reports tier
COHERENCE with the fixed stability-restored message. -/
theorem C4_theorem (s : CPhaseRuntime) (psi : PsiState) (hf : Bool)
    (hact : s.active = true) :
    (hf = true →
      (s.step psi hf).2.recovery_turns = 0 ∧ (s.step psi hf).2.active = true ∧
      (s.step psi hf).1.tier = "SAFETY") ∧
    (hf = false → EXIT_THRESHOLD ≤ psi.value →
      ((s.recovery_turns + 1 < RESTORE_TURNS →
        (s.step psi hf).2.recovery_turns = s.recovery_turns + 1 ∧
        (s.step psi hf).2.active = true) ∧
       (RESTORE_TURNS ≤ s.recovery_turns + 1 →
        (s.step psi hf).2 =
          { crisis_turns := 0, recovery_turns := 0, active := false, turn_counter := 0 } ∧
        (s.step psi hf).1.tier = "COHERENCE" ∧
        (s.step psi hf).1.message = some stabilityMsg))) ∧
    (hf = false → psi.value < EXIT_THRESHOLD →
      (s.step psi hf).2.recovery_turns = 0 ∧ (s.step psi hf).2.active = true) := by
  have h2 : ¬ (MIN_SUSTAINED ≤ s.crisis_turns + 1 ∧ s.active = false) := by simp [hact]
  unfold CPhaseRuntime.step CPhaseRuntime.detect CPhaseRuntime.deescalate CPhaseRuntime.check_exit
  refine ⟨fun hhf => ?_, fun hhf hge => ⟨fun hlt => ?_, fun hge3 => ?_⟩, fun hhf hlt => ?_⟩ <;>
      subst hhf
  · by_cases htick : psi.value < CRISIS_THRESHOLD <;> simp [htick, h2, hact]
  · have hnt : ¬ (psi.value < CRISIS_THRESHOLD) :=
      not_lt.mpr (le_trans (by norm_num [CRISIS_THRESHOLD, EXIT_THRESHOLD]) hge)
    simp [hnt, hact, hge, not_le.mpr hlt]
  · have hnt : ¬ (psi.value < CRISIS_THRESHOLD) :=
      not_lt.mpr (le_trans (by norm_num [CRISIS_THRESHOLD, EXIT_THRESHOLD]) hge)
    simp [hnt, hact, hge, hge3, stabilityMsg]
  · by_cases htick : psi.value < CRISIS_THRESHOLD <;>
      simp [htick, h2, hact, not_le.mpr hlt]

/-- C4 (witness): an active machine with recovery counter 2, stepped on
psi = 0.12 with no hard flag, exits: all counters and the cursor are zeroed
and the turn reports COHERENCE with the stability-restored message. -/
theorem C4_witness :
    (CPhaseRuntime.mk 0 2 true 5).active = true ∧
    EXIT_THRESHOLD ≤ ((12:ℚ)/100) ∧ RESTORE_TURNS ≤ 2 + 1 ∧
    ((CPhaseRuntime.mk 0 2 true 5).step ⟨12/100, 0⟩ false).2 =
      { crisis_turns := 0, recovery_turns := 0, active := false, turn_counter := 0 } ∧
    ((CPhaseRuntime.mk 0 2 true 5).step ⟨12/100, 0⟩ false).1.tier = "COHERENCE" ∧
    ((CPhaseRuntime.mk 0 2 true 5).step ⟨12/100, 0⟩ false).1.message = some stabilityMsg := by
  have h := ((C4_theorem (CPhaseRuntime.mk 0 2 true 5) ⟨12/100, 0⟩ false rfl).2.1 rfl
    (by norm_num [EXIT_THRESHOLD])).2 (by norm_num [RESTORE_TURNS])
  exact ⟨rfl, by norm_num [EXIT_THRESHOLD], by norm_num [RESTORE_TURNS], h.1, h.2.1, h.2.2⟩

/-- C6: `update` appends exactly the returned snapshot; the first recorded
snapshot has no derivative; each later snapshot's derivative is the
backward finite difference against the immediately preceding snapshot,
except that a non-positive time delta yields `none` (no division). -/
theorem C6_theorem (m : PsiMonitor) (now E I O P_align : ℚ) :
    ((m.update now E I O P_align).2.snapshots =
      m.snapshots ++ [(m.update now E I O P_align).1]) ∧
    (m.snapshots = [] → ((m.update now E I O P_align).1).dpsi_dt = none) ∧
    (∀ prev, m.snapshots.getLast? = some prev →
      ((now - prev.timestamp ≤ 0 → ((m.update now E I O P_align).1).dpsi_dt = none) ∧
       (0 < now - prev.timestamp →
        ((m.update now E I O P_align).1).dpsi_dt =
          some ((E * I * O * P_align - prev.psi) / (now - prev.timestamp))))) := by
  refine ⟨?_, ?_, ?_⟩
  · unfold PsiMonitor.update
    dsimp only
    split_ifs <;> rfl
  · intro hnil
    unfold PsiMonitor.update
    rw [hnil]
    rfl
  · intro prev hprev
    constructor <;> intro hdt <;> unfold PsiMonitor.update <;> rw [hprev]
    · simp [not_lt.mpr hdt]
    · simp [hdt]

/-- C6 (witness): a monitor holding one snapshot at t = 0, updated at
t = 1 with unit components, reports the backward difference (1 − 1)/1. -/
theorem C6_witness :
    ((⟨5/100, [⟨0, 1, 1, 1, 1, 1, none⟩], []⟩ : PsiMonitor).snapshots.getLast? =
      some ⟨0, 1, 1, 1, 1, 1, none⟩) ∧
    (0 < (1:ℚ) - (0:ℚ)) ∧
    (((⟨5/100, [⟨0, 1, 1, 1, 1, 1, none⟩], []⟩ : PsiMonitor).update 1 1 1 1 1).1).dpsi_dt =
      some ((1 * 1 * 1 * 1 - 1) / ((1:ℚ) - 0)) :=
  ⟨rfl, by norm_num,
    ((C6_theorem ⟨5/100, [⟨0, 1, 1, 1, 1, 1, none⟩], []⟩ 1 1 1 1 1).2.2
      ⟨0, 1, 1, 1, 1, 1, none⟩ rfl).2 (by norm_num)⟩

/-- C7: for a scene whose four components lie in [0,1], Ψ = E·I·O·P_align
lies in [0,1] and vanishes when any component is 0; and constructing a
scene succeeds exactly when every component is in [0,1] (out-of-range
values fail validation rather than being clamped). -/
theorem C7_theorem (s : Scene)
    (hE : 0 ≤ s.energy ∧ s.energy ≤ 1) (hI : 0 ≤ s.information ∧ s.information ≤ 1)
    (hO : 0 ≤ s.order ∧ s.order ≤ 1) (hP : 0 ≤ s.p_align ∧ s.p_align ≤ 1) :
    (0 ≤ s.calculate_psi ∧ s.calculate_psi ≤ 1) ∧
    ((s.energy = 0 ∨ s.information = 0 ∨ s.order = 0 ∨ s.p_align = 0) →
      s.calculate_psi = 0) ∧
    (∀ (n : ℕ) (t : ℚ) (ti : String) (E I O P : ℚ),
      (∃ sc, mkScene n t ti E I O P = Except.ok sc) ↔
        ((0 ≤ E ∧ E ≤ 1) ∧ (0 ≤ I ∧ I ≤ 1) ∧ (0 ≤ O ∧ O ≤ 1) ∧ (0 ≤ P ∧ P ≤ 1))) := by
  refine ⟨⟨?_, ?_⟩, ?_, ?_⟩
  · exact mul_nonneg (mul_nonneg (mul_nonneg hE.1 hI.1) hO.1) hP.1
  · exact mul_le_one₀ (mul_le_one₀ (mul_le_one₀ hE.2 hI.1 hI.2) hO.1 hO.2) hP.1 hP.2
  · intro hzero
    unfold Scene.calculate_psi
    rcases hzero with h | h | h | h <;> rw [h] <;> ring
  · intro n t ti E I O P
    unfold mkScene
    split_ifs with g1 g2 g3 g4 <;> simp_all

/-- C7 (witness): components (0.9, 0.9, 0.8, 0.9) are all in range, the
scene constructs, and its Ψ = 0.5832 lies in [0,1]. -/
theorem C7_witness :
    ((0:ℚ) ≤ 9/10 ∧ (9:ℚ)/10 ≤ 1) ∧ ((0:ℚ) ≤ 8/10 ∧ (8:ℚ)/10 ≤ 1) ∧
    (0 ≤ (Scene.mk 1 0 "w" (9/10) (9/10) (8/10) (9/10)).calculate_psi ∧
      (Scene.mk 1 0 "w" (9/10) (9/10) (8/10) (9/10)).calculate_psi ≤ 1) ∧
    (∃ sc, mkScene 1 0 "w" (9/10) (9/10) (8/10) (9/10) = Except.ok sc) :=
  ⟨⟨by norm_num, by norm_num⟩, ⟨by norm_num, by norm_num⟩,
    (C7_theorem (Scene.mk 1 0 "w" (9/10) (9/10) (8/10) (9/10))
      ⟨by norm_num, by norm_num⟩ ⟨by norm_num, by norm_num⟩
      ⟨by norm_num, by norm_num⟩ ⟨by norm_num, by norm_num⟩).1,
    ((C7_theorem (Scene.mk 1 0 "w" (9/10) (9/10) (8/10) (9/10))
      ⟨by norm_num, by norm_num⟩ ⟨by norm_num, by norm_num⟩
      ⟨by norm_num, by norm_num⟩ ⟨by norm_num, by norm_num⟩).2.2 1 0 "w"
      (9/10) (9/10) (8/10) (9/10)).mpr
      ⟨⟨by norm_num, by norm_num⟩, ⟨by norm_num, by norm_num⟩,
       ⟨by norm_num, by norm_num⟩, ⟨by norm_num, by norm_num⟩⟩⟩

end AtlasPsi
